import Mathlib

/-!
Verification of the portfolio-frontier computation of Leverage.py
(function plot_restaking_portfolios). Python floats are modelled by
exact rationals, numpy arrays by lists, and np.sqrt by Real.sqrt on the
rational cast into the reals. Line numbers refer to src/Leverage.py.
-/

namespace Leverage

/-- Market parameters of plot_restaking_portfolios (line 5), floats
modelled as rationals. -/
structure MarketParams where
  mu1 : ℚ
  mu2 : ℚ
  sigma1 : ℚ
  sigma2 : ℚ
  rho : ℚ
  rf : ℚ
deriving DecidableEq

/-- Default arguments of plot_restaking_portfolios (line 5). -/
def defaultParams : MarketParams :=
  ⟨5/100, 7/100, 10/100, 15/100, 3/10, 2/100⟩

/-- Covariance between AVS1 and AVS2 (line 32): cov = rho * sigma1 * sigma2. -/
def cov (p : MarketParams) : ℚ := p.rho * p.sigma1 * p.sigma2

/-- Embedding of np.linspace(0, 1, n) (lines 35 and 36): n evenly spaced
samples over the closed interval from 0 to 1, endpoint included; numpy
returns the single sample [start] for n = 1 and the empty array for n = 0. -/
def linspace01 (n : ℕ) : List ℚ :=
  if n = 1 then [0]
  else (List.range n).map (fun i : ℕ => (i : ℚ) / ((n : ℚ) - 1))

/-- Embedding of the flattened np.meshgrid(phi1, phi2) (line 37): every
grid cell holds the pair (phi1[i], phi2[j]), scanned row-major in j and
then i, as numpy stores the two grids. -/
def gridPairs (n : ℕ) : List (ℚ × ℚ) :=
  (linspace01 n).flatMap (fun p2 => (linspace01 n).map (fun p1 => (p1, p2)))

/-- Restaking expected return (line 44). -/
def E_R (p : MarketParams) (phi1 phi2 : ℚ) : ℚ :=
  p.mu1 * (1 - phi2) + p.mu2 * (1 - phi1)

/-- Restaking variance (lines 46 to 48). -/
def Var_R (p : MarketParams) (phi1 phi2 : ℚ) : ℚ :=
  (1 - phi2) ^ 2 * p.sigma1 ^ 2 + (1 - phi1) ^ 2 * p.sigma2 ^ 2
    + 2 * (1 - phi1) * (1 - phi2) * cov p

/-- Restaking volatility (line 49): np.sqrt of the variance. -/
noncomputable def sigma_R (p : MarketParams) (phi1 phi2 : ℚ) : ℝ :=
  Real.sqrt ((Var_R p phi1 phi2 : ℚ) : ℝ)

/-- Validity mask (line 52): phi1 + phi2 <= 1. -/
def valid_mask (phi1 phi2 : ℚ) : Bool := decide (phi1 + phi2 ≤ 1)

/-- Full-allocation mask (line 53): np.abs(1 - phi1 - phi2) < 1e-10. -/
def zero_alloc_mask (phi1 phi2 : ℚ) : Bool := decide (|1 - phi1 - phi2| < 1 / 10 ^ 10)

/-- Leveraged expected return (lines 59 and 60). -/
def E_R_leverage (p : MarketParams) (phi1 phi2 : ℚ) : ℚ :=
  phi1 * p.mu1 + phi2 * p.mu2 + (1 - phi1 - phi2) * p.rf

/-- Leveraged variance (lines 62 to 64). -/
def Var_R_leverage (p : MarketParams) (phi1 phi2 : ℚ) : ℚ :=
  phi1 ^ 2 * p.sigma1 ^ 2 + phi2 ^ 2 * p.sigma2 ^ 2 + 2 * phi1 * phi2 * cov p

/-- Leveraged volatility (line 65): np.sqrt of the leveraged variance. -/
noncomputable def sigma_R_leverage (p : MarketParams) (phi1 phi2 : ℚ) : ℝ :=
  Real.sqrt ((Var_R_leverage p phi1 phi2 : ℚ) : ℝ)

/-- Grid pairs kept by the two restaking scatter layers together
(lines 74 to 93): the pairs selected by valid_mask. -/
def restakingSet (n : ℕ) : List (ℚ × ℚ) :=
  (gridPairs n).filter (fun q => valid_mask q.1 q.2)

/-- Grid pairs of the color-graded restaking layer (lines 74 to 82):
valid_mask and not zero_alloc_mask. -/
def gradedRestakingSet (n : ℕ) : List (ℚ × ℚ) :=
  (gridPairs n).filter (fun q => valid_mask q.1 q.2 && !zero_alloc_mask q.1 q.2)

/-- Grid pairs of the fully-allocated restaking layer (lines 85 to 93):
valid_mask and zero_alloc_mask. -/
def fullyAllocatedSet (n : ℕ) : List (ℚ × ℚ) :=
  (gridPairs n).filter (fun q => valid_mask q.1 q.2 && zero_alloc_mask q.1 q.2)

/-- Grid pairs of the leveraged scatter layer (lines 96 to 104): every
grid pair, unmasked. -/
def leveragedSet (n : ℕ) : List (ℚ × ℚ) := gridPairs n

/-- A derived scatter point of either branch: the grid coordinates
together with the expected return and variance computed there. -/
structure PortfolioPoint where
  phi1 : ℚ
  phi2 : ℚ
  er : ℚ
  variance : ℚ
deriving DecidableEq

/-- The restaking point collection: expected return and variance of
lines 44 to 48 evaluated on the valid_mask grid pairs. -/
def restakingPoints (p : MarketParams) (n : ℕ) : List PortfolioPoint :=
  (restakingSet n).map (fun q => ⟨q.1, q.2, E_R p q.1 q.2, Var_R p q.1 q.2⟩)

/-- The fully-allocated point collection of the solid-color layer. -/
def fullyAllocatedPoints (p : MarketParams) (n : ℕ) : List PortfolioPoint :=
  (fullyAllocatedSet n).map (fun q => ⟨q.1, q.2, E_R p q.1 q.2, Var_R p q.1 q.2⟩)

/-- The leveraged point collection: expected return and variance of
lines 59 to 64 evaluated on every grid pair. -/
def leveragedPoints (p : MarketParams) (n : ℕ) : List PortfolioPoint :=
  (leveragedSet n).map
    (fun q => ⟨q.1, q.2, E_R_leverage p q.1 q.2, Var_R_leverage p q.1 q.2⟩)

/-- Market parameters with equal means and equal volatilities, used to
instantiate the symmetry property. -/
def symParams : MarketParams :=
  ⟨5/100, 5/100, 10/100, 10/100, 3/10, 2/100⟩

/-- The linspace embedding has exactly n samples. -/
lemma length_linspace01 (n : ℕ) : (linspace01 n).length = n := by
  unfold linspace01
  split
  · simp [*]
  · rw [List.length_map, List.length_range]

/-- Membership in the flattened meshgrid is exactly membership of each
coordinate in its linspace. -/
lemma mem_gridPairs (n : ℕ) (q : ℚ × ℚ) :
    q ∈ gridPairs n ↔ q.1 ∈ linspace01 n ∧ q.2 ∈ linspace01 n := by
  constructor
  · intro hq
    rcases List.mem_flatMap.mp hq with ⟨p2, hp2, hq1⟩
    rcases List.mem_map.mp hq1 with ⟨p1, hp1, hq2⟩
    subst hq2
    exact ⟨hp1, hp2⟩
  · rintro ⟨h1, h2⟩
    exact List.mem_flatMap.mpr ⟨q.2, h2, List.mem_map.mpr ⟨q.1, h1, rfl⟩⟩

/-- Auxiliary: the flattened meshgrid over two lists has product length. -/
lemma length_flatMap_map {α β : Type} (l2 : List α) (l1 : List β) :
    ((l2.flatMap (fun p2 => l1.map (fun p1 => (p1, p2)))).length) = l2.length * l1.length := by
  induction l2 with
  | nil => simp
  | cons a t ih =>
    simp only [List.flatMap_cons, List.length_append, List.length_map, List.length_cons, ih]
    ring

/-- The flattened meshgrid has exactly n * n cells. -/
lemma length_gridPairs (n : ℕ) : (gridPairs n).length = n * n := by
  unfold gridPairs
  rw [length_flatMap_map, length_linspace01]

/-- Unfolding membership in the restaking pair set. -/
lemma mem_restakingSet (n : ℕ) (q : ℚ × ℚ) :
    q ∈ restakingSet n ↔ q ∈ gridPairs n ∧ q.1 + q.2 ≤ 1 := by
  simp [restakingSet, List.mem_filter, valid_mask]

/-- Unfolding membership in the fully-allocated pair set. -/
lemma mem_fullyAllocatedSet (n : ℕ) (q : ℚ × ℚ) :
    q ∈ fullyAllocatedSet n ↔
      q ∈ gridPairs n ∧ q.1 + q.2 ≤ 1 ∧ |1 - q.1 - q.2| < 1 / 10 ^ 10 := by
  simp [fullyAllocatedSet, List.mem_filter, valid_mask, zero_alloc_mask, and_assoc]

/-- Unfolding membership in the color-graded restaking pair set. -/
lemma mem_gradedRestakingSet (n : ℕ) (q : ℚ × ℚ) :
    q ∈ gradedRestakingSet n ↔
      q ∈ gridPairs n ∧ q.1 + q.2 ≤ 1 ∧ ¬(|1 - q.1 - q.2| < 1 / 10 ^ 10) := by
  simp [gradedRestakingSet, List.mem_filter, valid_mask, zero_alloc_mask, and_assoc]

/-- Auxiliary: the quadratic form behind both variance expressions is
non-negative whenever the correlation lies in the unit interval. -/
lemma quad_nonneg (x y r : ℚ) (h1 : -1 ≤ r) (h2 : r ≤ 1) :
    0 ≤ x ^ 2 + y ^ 2 + 2 * r * x * y := by
  nlinarith [mul_nonneg (by linarith : (0 : ℚ) ≤ 1 + r) (sq_nonneg (x + y)),
    mul_nonneg (by linarith : (0 : ℚ) ≤ 1 - r) (sq_nonneg (x - y))]

/-- C1: For every market parameters, every n_points >= 1, and every grid
pair (phi1, phi2), the restaking branch computes
expected_return = mu1*(1 - phi2) + mu2*(1 - phi1),
variance = (1-phi2)^2*sigma1^2 + (1-phi1)^2*sigma2^2
  + 2*(1-phi1)*(1-phi2)*cov with cov = rho*sigma1*sigma2,
and volatility = sqrt(variance). -/
theorem C1_restaking_formulas (p : MarketParams) (n : ℕ) (phi1 phi2 : ℚ)
    (hn : 1 ≤ n) (hmem : (phi1, phi2) ∈ gridPairs n) :
    E_R p phi1 phi2 = p.mu1 * (1 - phi2) + p.mu2 * (1 - phi1) ∧
    Var_R p phi1 phi2 =
      (1 - phi2) ^ 2 * p.sigma1 ^ 2 + (1 - phi1) ^ 2 * p.sigma2 ^ 2
        + 2 * (1 - phi1) * (1 - phi2) * (p.rho * p.sigma1 * p.sigma2) ∧
    sigma_R p phi1 phi2 = Real.sqrt ((Var_R p phi1 phi2 : ℚ) : ℝ) := by
  refine ⟨rfl, ?_, rfl⟩
  unfold Var_R cov
  ring

/-- Witness for C1 at the default parameters, n_points = 2, grid pair (0, 0). -/
theorem C1_restaking_formulas_witness :
    1 ≤ 2 ∧ ((0 : ℚ), (0 : ℚ)) ∈ gridPairs 2 ∧
    (E_R defaultParams 0 0 =
        defaultParams.mu1 * (1 - 0) + defaultParams.mu2 * (1 - 0) ∧
      Var_R defaultParams 0 0 =
        (1 - 0) ^ 2 * defaultParams.sigma1 ^ 2 + (1 - 0) ^ 2 * defaultParams.sigma2 ^ 2
          + 2 * (1 - 0) * (1 - 0) * (defaultParams.rho * defaultParams.sigma1 * defaultParams.sigma2) ∧
      sigma_R defaultParams 0 0 = Real.sqrt ((Var_R defaultParams 0 0 : ℚ) : ℝ)) :=
  ⟨by norm_num,
   by norm_num [gridPairs, linspace01, List.range_succ],
   C1_restaking_formulas defaultParams 2 0 0 (by norm_num)
     (by norm_num [gridPairs, linspace01, List.range_succ])⟩

/-- C2: For every market parameters, every n_points >= 1, and every grid
pair (phi1, phi2), the leveraged branch computes
expected_return = phi1*mu1 + phi2*mu2 + (1 - phi1 - phi2)*rf,
variance = phi1^2*sigma1^2 + phi2^2*sigma2^2 + 2*phi1*phi2*cov with
cov = rho*sigma1*sigma2, and volatility = sqrt(variance). -/
theorem C2_leveraged_formulas (p : MarketParams) (n : ℕ) (phi1 phi2 : ℚ)
    (hn : 1 ≤ n) (hmem : (phi1, phi2) ∈ gridPairs n) :
    E_R_leverage p phi1 phi2 = phi1 * p.mu1 + phi2 * p.mu2 + (1 - phi1 - phi2) * p.rf ∧
    Var_R_leverage p phi1 phi2 =
      phi1 ^ 2 * p.sigma1 ^ 2 + phi2 ^ 2 * p.sigma2 ^ 2
        + 2 * phi1 * phi2 * (p.rho * p.sigma1 * p.sigma2) ∧
    sigma_R_leverage p phi1 phi2 = Real.sqrt ((Var_R_leverage p phi1 phi2 : ℚ) : ℝ) := by
  refine ⟨rfl, ?_, rfl⟩
  unfold Var_R_leverage cov
  ring

/-- Witness for C2 at the default parameters, n_points = 2, grid pair (1, 0). -/
theorem C2_leveraged_formulas_witness :
    1 ≤ 2 ∧ ((1 : ℚ), (0 : ℚ)) ∈ gridPairs 2 ∧
    (E_R_leverage defaultParams 1 0 =
        1 * defaultParams.mu1 + 0 * defaultParams.mu2 + (1 - 1 - 0) * defaultParams.rf ∧
      Var_R_leverage defaultParams 1 0 =
        1 ^ 2 * defaultParams.sigma1 ^ 2 + 0 ^ 2 * defaultParams.sigma2 ^ 2
          + 2 * 1 * 0 * (defaultParams.rho * defaultParams.sigma1 * defaultParams.sigma2) ∧
      sigma_R_leverage defaultParams 1 0 =
        Real.sqrt ((Var_R_leverage defaultParams 1 0 : ℚ) : ℝ)) :=
  ⟨by norm_num,
   by norm_num [gridPairs, linspace01, List.range_succ],
   C2_leveraged_formulas defaultParams 2 1 0 (by norm_num)
     (by norm_num [gridPairs, linspace01, List.range_succ])⟩

/-- C3: For every market parameters with sigma1, sigma2 >= 0 and
-1 <= rho <= 1, every n_points >= 1, and every grid pair, both variance
expressions are non-negative, the square root is defined there (its
square gives back the variance), and both returned volatilities are
non-negative. -/
theorem C3_volatility_nonneg (p : MarketParams) (n : ℕ) (phi1 phi2 : ℚ)
    (hs1 : 0 ≤ p.sigma1) (hs2 : 0 ≤ p.sigma2)
    (hr1 : -1 ≤ p.rho) (hr2 : p.rho ≤ 1)
    (hn : 1 ≤ n) (hmem : (phi1, phi2) ∈ gridPairs n) :
    0 ≤ Var_R p phi1 phi2 ∧ 0 ≤ Var_R_leverage p phi1 phi2 ∧
    (sigma_R p phi1 phi2) ^ 2 = ((Var_R p phi1 phi2 : ℚ) : ℝ) ∧
    (sigma_R_leverage p phi1 phi2) ^ 2 = ((Var_R_leverage p phi1 phi2 : ℚ) : ℝ) ∧
    0 ≤ sigma_R p phi1 phi2 ∧ 0 ≤ sigma_R_leverage p phi1 phi2 := by
  have hR : 0 ≤ Var_R p phi1 phi2 := by
    have h := quad_nonneg ((1 - phi2) * p.sigma1) ((1 - phi1) * p.sigma2) p.rho hr1 hr2
    unfold Var_R cov
    nlinarith [h]
  have hL : 0 ≤ Var_R_leverage p phi1 phi2 := by
    have h := quad_nonneg (phi1 * p.sigma1) (phi2 * p.sigma2) p.rho hr1 hr2
    unfold Var_R_leverage cov
    nlinarith [h]
  refine ⟨hR, hL, ?_, ?_, Real.sqrt_nonneg _, Real.sqrt_nonneg _⟩
  · exact Real.sq_sqrt (by exact_mod_cast hR)
  · exact Real.sq_sqrt (by exact_mod_cast hL)

/-- Witness for C3 at the default parameters, n_points = 2, grid pair (1, 1). -/
theorem C3_volatility_nonneg_witness :
    0 ≤ defaultParams.sigma1 ∧ 0 ≤ defaultParams.sigma2 ∧
    -1 ≤ defaultParams.rho ∧ defaultParams.rho ≤ 1 ∧
    1 ≤ 2 ∧ ((1 : ℚ), (1 : ℚ)) ∈ gridPairs 2 ∧
    (0 ≤ Var_R defaultParams 1 1 ∧ 0 ≤ Var_R_leverage defaultParams 1 1 ∧
      (sigma_R defaultParams 1 1) ^ 2 = ((Var_R defaultParams 1 1 : ℚ) : ℝ) ∧
      (sigma_R_leverage defaultParams 1 1) ^ 2 = ((Var_R_leverage defaultParams 1 1 : ℚ) : ℝ) ∧
      0 ≤ sigma_R defaultParams 1 1 ∧ 0 ≤ sigma_R_leverage defaultParams 1 1) :=
  ⟨by norm_num [defaultParams], by norm_num [defaultParams],
   by norm_num [defaultParams], by norm_num [defaultParams],
   by norm_num,
   by norm_num [gridPairs, linspace01, List.range_succ],
   C3_volatility_nonneg defaultParams 2 1 1
     (by norm_num [defaultParams]) (by norm_num [defaultParams])
     (by norm_num [defaultParams]) (by norm_num [defaultParams])
     (by norm_num) (by norm_num [gridPairs, linspace01, List.range_succ])⟩

/-- C4: For every n_points >= 1, a grid pair is in the restaking output
set iff phi1 + phi2 <= 1, the restaking set size equals the number of
grid pairs satisfying the inequality (hence at most n_points^2), and the
leveraged output set is all grid pairs with size exactly n_points^2. -/
theorem C4_masking_and_sizes (n : ℕ) (hn : 1 ≤ n) :
    (∀ q : ℚ × ℚ, q ∈ restakingSet n ↔ q ∈ gridPairs n ∧ q.1 + q.2 ≤ 1) ∧
    (restakingSet n).length = (gridPairs n).countP (fun q => decide (q.1 + q.2 ≤ 1)) ∧
    (restakingSet n).length ≤ n ^ 2 ∧
    (∀ q : ℚ × ℚ, q ∈ leveragedSet n ↔ q ∈ gridPairs n) ∧
    (leveragedSet n).length = n ^ 2 := by
  refine ⟨mem_restakingSet n, ?_, ?_, fun q => Iff.rfl, ?_⟩
  · rw [List.countP_eq_length_filter]
    rfl
  · calc (restakingSet n).length ≤ (gridPairs n).length := List.length_filter_le _ _
      _ = n ^ 2 := by rw [length_gridPairs, pow_two]
  · show (gridPairs n).length = n ^ 2
    rw [length_gridPairs, pow_two]

/-- Witness for C4 at n_points = 2. -/
theorem C4_masking_and_sizes_witness :
    1 ≤ 2 ∧
    ((∀ q : ℚ × ℚ, q ∈ restakingSet 2 ↔ q ∈ gridPairs 2 ∧ q.1 + q.2 ≤ 1) ∧
      (restakingSet 2).length = (gridPairs 2).countP (fun q => decide (q.1 + q.2 ≤ 1)) ∧
      (restakingSet 2).length ≤ 2 ^ 2 ∧
      (∀ q : ℚ × ℚ, q ∈ leveragedSet 2 ↔ q ∈ gridPairs 2) ∧
      (leveragedSet 2).length = 2 ^ 2) :=
  ⟨by norm_num, C4_masking_and_sizes 2 (by norm_num)⟩

/-- C5: A valid restaking point is tagged fully-allocated iff
|1 - phi1 - phi2| < 1e-10, the fully-allocated points are a subset of
the restaking set, and they are disjoint from the color-graded points. -/
theorem C5_fully_allocated_tag (n : ℕ) (q : ℚ × ℚ) (hn : 1 ≤ n)
    (hq : q ∈ restakingSet n) :
    (q ∈ fullyAllocatedSet n ↔ |1 - q.1 - q.2| < 1 / 10 ^ 10) ∧
    (∀ r : ℚ × ℚ, r ∈ fullyAllocatedSet n → r ∈ restakingSet n) ∧
    (∀ r : ℚ × ℚ, r ∈ fullyAllocatedSet n → r ∉ gradedRestakingSet n) := by
  refine ⟨?_, ?_, ?_⟩
  · rw [mem_restakingSet] at hq
    rw [mem_fullyAllocatedSet]
    exact ⟨fun h => h.2.2, fun h => ⟨hq.1, hq.2, h⟩⟩
  · intro r hr
    rw [mem_fullyAllocatedSet] at hr
    rw [mem_restakingSet]
    exact ⟨hr.1, hr.2.1⟩
  · intro r hr hg
    rw [mem_fullyAllocatedSet] at hr
    rw [mem_gradedRestakingSet] at hg
    exact hg.2.2 hr.2.2

/-- Witness for C5 at n_points = 2 and the valid grid pair (1, 0). -/
theorem C5_fully_allocated_tag_witness :
    1 ≤ 2 ∧ ((1 : ℚ), (0 : ℚ)) ∈ restakingSet 2 ∧
    ((((1 : ℚ), (0 : ℚ)) ∈ fullyAllocatedSet 2 ↔
        |1 - ((1 : ℚ), (0 : ℚ)).1 - ((1 : ℚ), (0 : ℚ)).2| < 1 / 10 ^ 10) ∧
      (∀ r : ℚ × ℚ, r ∈ fullyAllocatedSet 2 → r ∈ restakingSet 2) ∧
      (∀ r : ℚ × ℚ, r ∈ fullyAllocatedSet 2 → r ∉ gradedRestakingSet 2)) :=
  ⟨by norm_num,
   by rw [mem_restakingSet]
      norm_num [gridPairs, linspace01, List.range_succ],
   C5_fully_allocated_tag 2 (1, 0) (by norm_num)
     (by rw [mem_restakingSet]
         norm_num [gridPairs, linspace01, List.range_succ])⟩

/-- C6: For every n_points >= 1, phi1 and phi2 are each exactly n_points
evenly spaced values over [0, 1] (sample i equals i/(n_points - 1) and
both endpoints belong to the list once n_points >= 2, with constant gap
1/(n_points - 1)), the grid is the full Cartesian product of n_points^2
pairs, and for n_points = 1 the grid degenerates to the pair (0, 0). -/
theorem C6_grid_construction (n : ℕ) (hn : 1 ≤ n) :
    (linspace01 n).length = n ∧
    (gridPairs n).length = n ^ 2 ∧
    (∀ q : ℚ × ℚ, q ∈ gridPairs n ↔ q.1 ∈ linspace01 n ∧ q.2 ∈ linspace01 n) ∧
    (n = 1 → linspace01 n = [0] ∧ gridPairs n = [(0, 0)]) ∧
    (2 ≤ n →
      (∀ (i : ℕ) (hi : i < (linspace01 n).length),
        (linspace01 n).get ⟨i, hi⟩ = (i : ℚ) / ((n : ℚ) - 1)) ∧
      (0 : ℚ) ∈ linspace01 n ∧ (1 : ℚ) ∈ linspace01 n ∧
      (∀ (i : ℕ) (hi : i + 1 < (linspace01 n).length),
        (linspace01 n).get ⟨i + 1, hi⟩ - (linspace01 n).get ⟨i, by omega⟩
          = 1 / ((n : ℚ) - 1))) := by
  refine ⟨length_linspace01 n, by rw [length_gridPairs, pow_two], mem_gridPairs n, ?_, ?_⟩
  · rintro rfl
    exact ⟨rfl, rfl⟩
  · intro h2
    have hne : n ≠ 1 := by omega
    have hcast : (n : ℚ) - 1 ≠ 0 := by
      have h : (2 : ℚ) ≤ (n : ℚ) := by exact_mod_cast h2
      linarith
    have hget : ∀ (i : ℕ) (hi : i < (linspace01 n).length),
        (linspace01 n).get ⟨i, hi⟩ = (i : ℚ) / ((n : ℚ) - 1) := by
      intro i hi
      have hi2 : i < n := by rwa [length_linspace01] at hi
      simp [linspace01, if_neg hne, List.get_eq_getElem, List.getElem_map, hi2]
    refine ⟨hget, ?_, ?_, ?_⟩
    · unfold linspace01
      rw [if_neg hne]
      refine List.mem_map.mpr ⟨0, List.mem_range.mpr (by omega), by norm_num⟩
    · unfold linspace01
      rw [if_neg hne]
      refine List.mem_map.mpr ⟨n - 1, List.mem_range.mpr (by omega), ?_⟩
      have hc : ((n - 1 : ℕ) : ℚ) = (n : ℚ) - 1 := by
        rw [Nat.cast_sub hn]
        norm_num
      rw [hc, div_self hcast]
    · intro i hi
      rw [hget (i + 1) hi, hget i (by omega)]
      push_cast
      ring

/-- Witness for C6 at n_points = 2. -/
theorem C6_grid_construction_witness :
    1 ≤ 2 ∧
    ((linspace01 2).length = 2 ∧
      (gridPairs 2).length = 2 ^ 2 ∧
      (∀ q : ℚ × ℚ, q ∈ gridPairs 2 ↔ q.1 ∈ linspace01 2 ∧ q.2 ∈ linspace01 2) ∧
      ((2 : ℕ) = 1 → linspace01 2 = [0] ∧ gridPairs 2 = [(0, 0)]) ∧
      (2 ≤ 2 →
        (∀ (i : ℕ) (hi : i < (linspace01 2).length),
          (linspace01 2).get ⟨i, hi⟩ = (i : ℚ) / (((2 : ℕ) : ℚ) - 1)) ∧
        (0 : ℚ) ∈ linspace01 2 ∧ (1 : ℚ) ∈ linspace01 2 ∧
        (∀ (i : ℕ) (hi : i + 1 < (linspace01 2).length),
          (linspace01 2).get ⟨i + 1, hi⟩ - (linspace01 2).get ⟨i, by omega⟩
            = 1 / (((2 : ℕ) : ℚ) - 1)))) :=
  ⟨by norm_num, C6_grid_construction 2 (by norm_num)⟩

/-- C7 counterexample: at n_points = 0 the computation does not fail;
every stage is total and returns a defined, empty result (np.linspace
yields an empty array, the meshgrid has no cells, and every masked or
unmasked collection is empty), so the input is not rejected. -/
theorem C7_counterexample_no_rejection :
    linspace01 0 = [] ∧ gridPairs 0 = [] ∧
    restakingSet 0 = [] ∧ gradedRestakingSet 0 = [] ∧
    fullyAllocatedSet 0 = [] ∧ leveragedSet 0 = [] ∧
    restakingPoints defaultParams 0 = [] ∧
    fullyAllocatedPoints defaultParams 0 = [] ∧
    leveragedPoints defaultParams 0 = [] :=
  ⟨rfl, rfl, rfl, rfl, rfl, rfl, rfl, rfl, rfl⟩

/-- C7 amended: n_points = 0 is not rejected; the computation completes
and produces empty point sets in every branch, while n_points = 1 is
accepted and produces a single-point result in each branch. -/
theorem C7_amended_degenerate_grid :
    restakingSet 0 = [] ∧ leveragedSet 0 = [] ∧
    restakingSet 1 = [(0, 0)] ∧ (restakingSet 1).length = 1 ∧
    leveragedSet 1 = [(0, 0)] ∧ (leveragedSet 1).length = 1 := by
  refine ⟨rfl, rfl, ?_, ?_, rfl, rfl⟩
  · norm_num [restakingSet, gridPairs, linspace01, valid_mask, List.filter]
  · norm_num [restakingSet, gridPairs, linspace01, valid_mask, List.filter]

/-- C8: With mu1 = mu2 and sigma1 = sigma2, the restaking expected-return
surface is symmetric under swapping phi1 and phi2: the swapped pair is
also a grid pair and carries the same expected return. -/
theorem C8_expected_return_symmetry (p : MarketParams) (n : ℕ) (phi1 phi2 : ℚ)
    (hmu : p.mu1 = p.mu2) (hsigma : p.sigma1 = p.sigma2)
    (hn : 1 ≤ n) (hmem : (phi1, phi2) ∈ gridPairs n) :
    (phi2, phi1) ∈ gridPairs n ∧ E_R p phi1 phi2 = E_R p phi2 phi1 := by
  constructor
  · rw [mem_gridPairs] at hmem ⊢
    exact ⟨hmem.2, hmem.1⟩
  · unfold E_R
    rw [hmu]
    ring

/-- Witness for C8 at equal-mean, equal-volatility parameters,
n_points = 2, grid pair (1, 0). -/
theorem C8_expected_return_symmetry_witness :
    symParams.mu1 = symParams.mu2 ∧ symParams.sigma1 = symParams.sigma2 ∧
    1 ≤ 2 ∧ ((1 : ℚ), (0 : ℚ)) ∈ gridPairs 2 ∧
    (((0 : ℚ), (1 : ℚ)) ∈ gridPairs 2 ∧ E_R symParams 1 0 = E_R symParams 0 1) :=
  ⟨rfl, rfl, by norm_num,
   by norm_num [gridPairs, linspace01, List.range_succ],
   C8_expected_return_symmetry symParams 2 1 0 rfl rfl (by norm_num)
     (by norm_num [gridPairs, linspace01, List.range_succ])⟩

/-- C9: On the simplex boundary phi1 + phi2 = 1 the restaking branch and
the leveraged branch coincide: same expected return (equal to
phi1*mu1 + phi2*mu2, the risk-free term vanishing), same variance, and
hence the same volatility. -/
theorem C9_boundary_coincidence (p : MarketParams) (n : ℕ) (phi1 phi2 : ℚ)
    (hn : 1 ≤ n) (hmem : (phi1, phi2) ∈ gridPairs n) (hsum : phi1 + phi2 = 1) :
    E_R p phi1 phi2 = E_R_leverage p phi1 phi2 ∧
    E_R p phi1 phi2 = phi1 * p.mu1 + phi2 * p.mu2 ∧
    Var_R p phi1 phi2 = Var_R_leverage p phi1 phi2 ∧
    sigma_R p phi1 phi2 = sigma_R_leverage p phi1 phi2 := by
  have h2 : phi2 = 1 - phi1 := by linarith
  subst h2
  have hVar : Var_R p phi1 (1 - phi1) = Var_R_leverage p phi1 (1 - phi1) := by
    unfold Var_R Var_R_leverage
    ring
  refine ⟨?_, ?_, hVar, ?_⟩
  · unfold E_R E_R_leverage
    ring
  · unfold E_R
    ring
  · unfold sigma_R sigma_R_leverage
    rw [hVar]

/-- Witness for C9 at the default parameters, n_points = 2, grid pair (1, 0). -/
theorem C9_boundary_coincidence_witness :
    1 ≤ 2 ∧ ((1 : ℚ), (0 : ℚ)) ∈ gridPairs 2 ∧ (1 : ℚ) + 0 = 1 ∧
    (E_R defaultParams 1 0 = E_R_leverage defaultParams 1 0 ∧
      E_R defaultParams 1 0 = 1 * defaultParams.mu1 + 0 * defaultParams.mu2 ∧
      Var_R defaultParams 1 0 = Var_R_leverage defaultParams 1 0 ∧
      sigma_R defaultParams 1 0 = sigma_R_leverage defaultParams 1 0) :=
  ⟨by norm_num,
   by norm_num [gridPairs, linspace01, List.range_succ],
   by norm_num,
   C9_boundary_coincidence defaultParams 2 1 0 (by norm_num)
     (by norm_num [gridPairs, linspace01, List.range_succ]) (by norm_num)⟩

/-- C10: With n_points = 0 the computation completes without any error
and every collection is empty: the linspace samples, the meshgrid, and
all derived point collections (restaking, fully-allocated, leveraged)
for any market parameters. -/
theorem C10_zero_points_empty (p : MarketParams) :
    linspace01 0 = [] ∧ gridPairs 0 = [] ∧
    restakingPoints p 0 = [] ∧ fullyAllocatedPoints p 0 = [] ∧
    leveragedPoints p 0 = [] ∧
    restakingSet 0 = [] ∧ gradedRestakingSet 0 = [] ∧
    fullyAllocatedSet 0 = [] ∧ leveragedSet 0 = [] :=
  ⟨rfl, rfl, rfl, rfl, rfl, rfl, rfl, rfl, rfl⟩

end Leverage
